import Mathlib

/-!
# Verification of the `GalvoObjectivePiezo` composite scan controller

Shallow embedding of `hardware/interfuse/galvo_objective_piezo.py`: an
interfuse composing a 2-axis galvo scanner (the lateral device) with a
1-axis objective piezo (the depth actuator) into a 3-axis confocal scanner.

Modelling conventions:
* Floats are modelled as exact rationals (`ℚ`).
* Calls issued to the two hardware collaborators are recorded in a trace of
  `HwOp` values, in the order the Python code issues them.
* The lateral device (`self._galvo`) is an external collaborator consumed
  through the qudi `ConfocalScannerInterface` contract: its methods return
  integer status codes (0 ok, -1 error) or count arrays.  It is modelled as
  a record of response functions (`Galvo`).
* The piezo (`pipython.GCSDevice`) offers `SVO` (servo on/off), `SVA`
  (raw value write) and `CloseConnection`; these appear only as trace ops,
  and the observable piezo state they induce is `PiezoState`.
* A Python function either returns a value (`ScanOutcome.ok`), reports an
  error through the module's explicit error path `self.log.error(...)`
  followed by `return -1` (`ScanOutcome.errCode`), or lets an uncaught
  exception propagate (`ScanOutcome.exn`).
-/

namespace GalvoObjectivePiezo

/-- Uncaught Python exceptions that the embedded code paths can raise. -/
inductive PyExn : Type
  /-- `IndexError`, e.g. from `xVals[0]` on an empty list. -/
  | indexError : PyExn
  /-- An error raised by the piezo SDK (`pipython`), e.g. from
  `CloseConnection`. -/
  | gcsError : PyExn
deriving DecidableEq, Repr

/-- Outcome of a Python call: a returned value, the module's explicit
`self.log.error(...); return -1` error path, or an uncaught exception. -/
inductive ScanOutcome (α : Type) : Type
  | ok (a : α) : ScanOutcome α
  | errCode : ScanOutcome α
  | exn (e : PyExn) : ScanOutcome α
deriving DecidableEq, Repr

/-- One call issued to one of the two hardware collaborators. -/
inductive HwOp : Type
  /-- `self._galvo.scanner_set_position(x, y)` -/
  | galvoSetPosition (x y : ℚ) : HwOp
  /-- `self._galvo.scan_line(path, pixel_clock)` with `path` given by its
  x-row and y-row. -/
  | galvoScanLine (xs ys : List ℚ) (pixelClock : Bool) : HwOp
  /-- `self._galvo.reset_hardware()` -/
  | galvoReset : HwOp
  /-- `self._piezo.SVO(axis, b)` — enable/disable closed-loop servo. -/
  | piezoSVO (b : Bool) : HwOp
  /-- `self._piezo.SVA(axis, v)` — raw open-loop value write. -/
  | piezoSVA (v : ℚ) : HwOp
  /-- `self._piezo.CloseConnection()` -/
  | piezoCloseConnection : HwOp
deriving DecidableEq, Repr

/-- Is this op addressed to the piezo (the depth actuator)? -/
def HwOp.isPiezoOp : HwOp → Bool
  | HwOp.piezoSVO _ => true
  | HwOp.piezoSVA _ => true
  | HwOp.piezoCloseConnection => true
  | _ => false

/-- The lateral collaborator, modelled as its responses.  Per the qudi
`ConfocalScannerInterface` contract its methods return integer error codes
(0: OK, -1: error); `scan_line` returns a k × m count array, modelled as a
list of k rows. -/
structure Galvo : Type where
  scannerSetPositionRet : ℚ → ℚ → Int
  scanLineCounts : List ℚ → List ℚ → Bool → List (List ℚ)
  setVoltageRangeRet : List (ℚ × ℚ) → Int
  resetRet : Int

/-- The interfuse's own mutable fields that the embedded methods read or
write.  `piezo_voltage_ranges` is `self._piezo_voltage_ranges`, the list of
intervals stored by `set_voltage_range` (the z slice `volRange[2:3]`).
`piezo_position_ranges` is `self._piezo_position_ranges` as read in
`_set_piezo_position`, which takes its elements `[0]` and `[1]` as the two
scalar clamp bounds. -/
structure Controller : Type where
  piezo_voltage_ranges : List (ℚ × ℚ)
  piezo_position_ranges : ℚ × ℚ

/-- Observable state of the depth actuator affected by `SVO`/`SVA`. -/
structure PiezoState : Type where
  servoOn : Bool
  lastVoltage : Option ℚ
deriving DecidableEq, Repr

/-- Effect of one hardware op on the piezo's observable state; galvo ops do
not touch the piezo. -/
def applyOp (s : PiezoState) : HwOp → PiezoState
  | HwOp.piezoSVO b => { s with servoOn := b }
  | HwOp.piezoSVA v => { s with lastVoltage := some v }
  | _ => s

/-- Effect of a trace of hardware ops on the piezo's observable state. -/
def applyOps (s : PiezoState) (ops : List HwOp) : PiezoState :=
  ops.foldl applyOp s

/-- `_piezo_qudi_position_to_pi_voltage`: qudi position (meters) to piezo
voltage. `micron_qudi_position = qudi_position * (10**6)`;
`voltage = micron_qudi_position + 50`. -/
def piezo_qudi_position_to_pi_voltage (qudi_position : ℚ) : ℚ :=
  let micron_qudi_position := qudi_position * 10 ^ 6
  micron_qudi_position + 50

/-- `_piezo_pi_position_to_qudi_position`: piezo reading to qudi position
(meters). `qudi_micron_position = pi_position - 50`;
`qudi_position = qudi_micron_position * (10**-6)`. -/
def piezo_pi_position_to_qudi_position (pi_position : ℚ) : ℚ :=
  let qudi_micron_position := pi_position - 50
  qudi_micron_position * (1 / 10 ^ 6)

/-- `_set_piezo_position(position)`: convert the qudi position to a
voltage, read the clamp bounds from `self._piezo_position_ranges[0]` and
`self._piezo_position_ranges[1]` (the code names the locals
`piezo_vol_min` / `piezo_vol_max` but reads the position-ranges field, not
`self._piezo_voltage_ranges`), silently return when out of bounds,
otherwise `SVO(axis, False)` then `SVA(axis, voltage)`.  The value of the
function is the trace of piezo calls issued. -/
def set_piezo_position (c : Controller) (position : ℚ) : List HwOp :=
  let voltage := piezo_qudi_position_to_pi_voltage position
  let piezo_vol_min := c.piezo_position_ranges.1
  let piezo_vol_max := c.piezo_position_ranges.2
  if voltage < piezo_vol_min ∨ voltage > piezo_vol_max then
    []
  else
    [HwOp.piezoSVO false, HwOp.piezoSVA voltage]

/-- `scanner_set_position(x, y, z)`: forward `(x, y)` to the galvo, write
`z` through `_set_piezo_position`, return the galvo's return code. -/
def scanner_set_position (g : Galvo) (c : Controller) (x y z : ℚ) :
    Int × List HwOp :=
  let galvoReturn := g.scannerSetPositionRet x y
  (galvoReturn, HwOp.galvoSetPosition x y :: set_piezo_position c z)

/-- `set_voltage_range(volRange)`: forward `volRange[0:2]` to the galvo,
store `volRange[2:3]` as `self._piezo_voltage_ranges`, return the galvo's
return code. -/
def set_voltage_range (g : Galvo) (c : Controller)
    (volRange : List (ℚ × ℚ)) : Controller × Int :=
  let galvoReturn := g.setVoltageRangeRet (volRange.take 2)
  ({ c with piezo_voltage_ranges := (volRange.drop 2).take 1 }, galvoReturn)

/-- `reset_hardware()`: ask the galvo to reset (it reports an integer
status), then `self._piezo.CloseConnection()`.  `CloseConnection` returns
no status; its only failure mode is an SDK exception, modelled by the flag
`piezoCloseOk`.  Both calls are always issued; on a close failure the
exception propagates and the galvo's code is lost. -/
def reset_hardware (g : Galvo) (piezoCloseOk : Bool) :
    ScanOutcome Int × List HwOp :=
  let galvoReturn := g.resetRet
  if piezoCloseOk then
    (ScanOutcome.ok galvoReturn, [HwOp.galvoReset, HwOp.piezoCloseConnection])
  else
    (ScanOutcome.exn PyExn.gcsError,
     [HwOp.galvoReset, HwOp.piezoCloseConnection])

/-- Does an outcome report failure to the caller?  A returned status
reports failure when it is non-zero (qudi convention 0: OK, -1: error);
the explicit error path and an uncaught exception always do. -/
def reportsFailure : ScanOutcome Int → Bool
  | ScanOutcome.ok r => decide (r ≠ 0)
  | ScanOutcome.errCode => true
  | ScanOutcome.exn _ => true

/-- A scan path: the `line_path` argument of `scan_line`, a 3 × k array of
per-pixel `(x, y, z)` positions, modelled column-wise.  The array shape
makes the three coordinate rows equal-length by construction. -/
abbrev ScanPath : Type := List (ℚ × ℚ × ℚ)

/-- `line_path[0, :].tolist()` -/
def xValsOf (p : ScanPath) : List ℚ := p.map fun s => s.1

/-- `line_path[1, :].tolist()` -/
def yValsOf (p : ScanPath) : List ℚ := p.map fun s => s.2.1

/-- `line_path[2, :].tolist()` -/
def zValsOf (p : ScanPath) : List ℚ := p.map fun s => s.2.2

/-- The constancy test of `scan_line`:
`vals.count(first) == len(vals)`. -/
def constantVals (vals : List ℚ) (first : ℚ) : Bool :=
  vals.count first == vals.length

/-- The counts the `_scan_z_line` loop accumulates (`counts`, built by
`vstack` in index order): for each depth sample, the first row
(`[0, :]`) of the 2-sample galvo acquisition at the held `(x, y)`. -/
def scan_z_line_loop_counts (g : Galvo) (x y : ℚ) (z_path : List ℚ)
    (pixel_clock : Bool) : List (List ℚ) :=
  z_path.map fun _ => (g.scanLineCounts [x, x] [y, y] pixel_clock).headI

/-- `_scan_z_line(x, y, z_path, pixel_clock)`: for each `z_index`, write
`z_path[z_index]` through `_set_piezo_position`, then run one 2-sample
galvo line scan at the held `(x, y)` (`galvo_vals = vstack(([x, x],
[y, y]))`) and keep the first returned row.  The loop accumulates
`counts`, but the function body ends without a `return` statement, so the
accumulated counts are dead and the Python call evaluates to `None`: the
first component is `none`.  The second component is the trace of hardware
calls the loop issues. -/
def scan_z_line (g : Galvo) (c : Controller) (x y : ℚ) (z_path : List ℚ)
    (pixel_clock : Bool) : Option (List (List ℚ)) × List HwOp :=
  let _counts := scan_z_line_loop_counts g x y z_path pixel_clock
  (none,
   (z_path.map fun z_pos =>
      set_piezo_position c z_pos ++
        [HwOp.galvoScanLine [x, x] [y, y] pixel_clock]).flatten)

/-- `scan_line(line_path, pixel_clock)`:
* `line_path is None` → `log.error(...); return -1`;
* extract `xVals`, `yVals`, `zVals`; on an empty path `firstX = xVals[0]`
  raises `IndexError` before any hardware call;
* compute the three constancy flags;
* `constantZ` → lateral: `self._galvo.scan_line(line_path[0:2, :],
  pixel_clock)`, returned directly;
* `not constantZ` and both `constantX` and `constantY` → z scan via
  `_scan_z_line(firstX, firstY, zVals, pixel_clock)`;
* otherwise → `log.error('This module only supports scans in xy or z.');
  return -1`, no hardware call. -/
def scan_line (g : Galvo) (c : Controller) (line_path : Option ScanPath)
    (pixel_clock : Bool) :
    ScanOutcome (Option (List (List ℚ))) × List HwOp :=
  match line_path with
  | none => (ScanOutcome.errCode, [])
  | some p =>
    match p with
    | [] => (ScanOutcome.exn PyExn.indexError, [])
    | s0 :: _ =>
      let xVals := xValsOf p
      let yVals := yValsOf p
      let zVals := zValsOf p
      let firstX := s0.1
      let firstY := s0.2.1
      let firstZ := s0.2.2
      let constantX := constantVals xVals firstX
      let constantY := constantVals yVals firstY
      let constantZ := constantVals zVals firstZ
      if constantZ then
        (ScanOutcome.ok (some (g.scanLineCounts xVals yVals pixel_clock)),
         [HwOp.galvoScanLine xVals yVals pixel_clock])
      else if constantX && constantY then
        let r := scan_z_line g c firstX firstY zVals pixel_clock
        (ScanOutcome.ok r.1, r.2)
      else
        (ScanOutcome.errCode, [])

/-- Every raw piezo write is immediately preceded by a servo-disable: the
checker accepts a trace iff each `piezoSVA` op directly follows a
`piezoSVO false` op. -/
def svaAfterSvoOff : List HwOp → Bool
  | [] => true
  | HwOp.piezoSVO false :: HwOp.piezoSVA _ :: rest => svaAfterSvoOff rest
  | HwOp.piezoSVA _ :: _ => false
  | _ :: rest => svaAfterSvoOff rest

/-- Modelled from the spec: `physical_to_actuator_voltage(position_meters)
= position_meters * 1e6 + offset` with `offset = 50`, the configured
midpoint shift for an actuator-native 0..100 range centered at 0. -/
def spec_physical_to_actuator_voltage (position_meters : ℚ) : ℚ :=
  position_meters * 10 ^ 6 + 50

/-- Modelled from the spec: the inverse conversion
`actuator_reading_to_physical(reading) = (reading - 50) * 1e-6`. -/
def spec_actuator_reading_to_physical (reading : ℚ) : ℚ :=
  (reading - 50) * (1 / 10 ^ 6)

/-- A concrete lateral collaborator used for witnesses: every status call
succeeds and a line scan returns one single-channel row per sample. -/
def gEx : Galvo where
  scannerSetPositionRet := fun _ _ => 0
  scanLineCounts := fun xs _ _ => xs.map fun _ => [1]
  setVoltageRangeRet := fun _ => 0
  resetRet := 0

/-- A concrete lateral collaborator whose reset reports failure. -/
def gExFail : Galvo where
  scannerSetPositionRet := fun _ _ => -1
  scanLineCounts := fun _ _ _ => []
  setVoltageRangeRet := fun _ => -1
  resetRet := -1

/-- A concrete controller state used for witnesses: configured
`piezo_position_ranges` of `(0, 100)` and no stored voltage range yet. -/
def cEx : Controller where
  piezo_voltage_ranges := []
  piezo_position_ranges := (0, 100)

/-- A concrete controller whose configured `piezo_position_ranges` is a
qudi-style meter interval centered at 0. -/
def cExMeters : Controller where
  piezo_voltage_ranges := []
  piezo_position_ranges := (-(1 / 20000), 1 / 20000)

/-! ## Helper lemmas shared by several claims -/

/-- Prepending a `galvoScanLine` op does not affect the servo-discipline
check. -/
theorem svaAfterSvoOff_galvoScanLine_cons (xs ys : List ℚ) (pc : Bool)
    (l : List HwOp) :
    svaAfterSvoOff (HwOp.galvoScanLine xs ys pc :: l) = svaAfterSvoOff l :=
  rfl

/-- Prepending a `galvoSetPosition` op does not affect the servo-discipline
check. -/
theorem svaAfterSvoOff_galvoSetPosition_cons (x y : ℚ) (l : List HwOp) :
    svaAfterSvoOff (HwOp.galvoSetPosition x y :: l) = svaAfterSvoOff l :=
  rfl

/-- The block of piezo ops emitted by `_set_piezo_position` passes the
servo-discipline check and leaves the rest of the trace to be checked. -/
theorem svaAfterSvoOff_set_piezo_append (c : Controller) (z : ℚ)
    (l : List HwOp) :
    svaAfterSvoOff (set_piezo_position c z ++ l) = svaAfterSvoOff l := by
  simp only [set_piezo_position]
  split
  · rfl
  · rfl

/-- `scan_line` on a lateral path (constant z): one forwarded galvo line
scan, its counts returned directly. -/
theorem scan_line_lateral_eq (g : Galvo) (c : Controller) (s0 : ℚ × ℚ × ℚ)
    (rest : ScanPath) (pc : Bool)
    (hz : constantVals (zValsOf (s0 :: rest)) s0.2.2 = true) :
    scan_line g c (some (s0 :: rest)) pc =
      (ScanOutcome.ok
        (some (g.scanLineCounts (xValsOf (s0 :: rest)) (yValsOf (s0 :: rest)) pc)),
       [HwOp.galvoScanLine (xValsOf (s0 :: rest)) (yValsOf (s0 :: rest)) pc]) := by
  simp only [scan_line, hz, if_true]

/-- `scan_line` on a depth path (z varies, x and y constant): dispatch to
`_scan_z_line` at the held first lateral position. -/
theorem scan_line_depth_eq (g : Galvo) (c : Controller) (s0 : ℚ × ℚ × ℚ)
    (rest : ScanPath) (pc : Bool)
    (hz : constantVals (zValsOf (s0 :: rest)) s0.2.2 = false)
    (hx : constantVals (xValsOf (s0 :: rest)) s0.1 = true)
    (hy : constantVals (yValsOf (s0 :: rest)) s0.2.1 = true) :
    scan_line g c (some (s0 :: rest)) pc =
      (ScanOutcome.ok (scan_z_line g c s0.1 s0.2.1 (zValsOf (s0 :: rest)) pc).1,
       (scan_z_line g c s0.1 s0.2.1 (zValsOf (s0 :: rest)) pc).2) := by
  simp only [scan_line, hz, hx, hy, Bool.and_self, if_true, Bool.false_eq_true,
    if_false]

/-- `scan_line` on a mixed-geometry path (z varies and x or y varies):
the explicit error return, no hardware ops. -/
theorem scan_line_invalid_eq (g : Galvo) (c : Controller) (s0 : ℚ × ℚ × ℚ)
    (rest : ScanPath) (pc : Bool)
    (hz : constantVals (zValsOf (s0 :: rest)) s0.2.2 = false)
    (hxy : (constantVals (xValsOf (s0 :: rest)) s0.1 &&
            constantVals (yValsOf (s0 :: rest)) s0.2.1) = false) :
    scan_line g c (some (s0 :: rest)) pc = (ScanOutcome.errCode, []) := by
  simp only [scan_line, hz, hxy, Bool.false_eq_true, if_false]

/-! ## Claims -/

/-- C4: for every value `v` in the depth actuator's native 0..100 range,
the reading-to-physical conversion followed by the physical-to-voltage
conversion returns `v` again — an exact identity over exact arithmetic. -/
theorem piezo_conversion_roundtrip (v : ℚ) (_h0 : 0 ≤ v) (_h100 : v ≤ 100) :
    piezo_qudi_position_to_pi_voltage (piezo_pi_position_to_qudi_position v)
      = v := by
  simp only [piezo_qudi_position_to_pi_voltage,
    piezo_pi_position_to_qudi_position]
  ring

/-- Witness for C4 at the in-range reading `v = 25`. -/
theorem piezo_conversion_roundtrip_witness :
    (0 : ℚ) ≤ 25 ∧ (25 : ℚ) ≤ 100 ∧
      piezo_qudi_position_to_pi_voltage (piezo_pi_position_to_qudi_position 25)
        = 25 :=
  ⟨by norm_num, by norm_num,
   piezo_conversion_roundtrip 25 (by norm_num) (by norm_num)⟩

/-- C5: the depth-axis unit conversion is the pure affine map
`voltage = position_meters * 1e6 + 50` (offset 50, the midpoint shift of
the actuator-native 0..100 range), and the inverse conversion is
`position_meters = (reading - 50) * 1e-6`.  Both sides are pure functions
of their argument (the embedding gives them no state and no trace, matching
the source, which reads and writes nothing). -/
theorem piezo_conversion_matches_spec_affine :
    (∀ p : ℚ,
       piezo_qudi_position_to_pi_voltage p = spec_physical_to_actuator_voltage p) ∧
    (∀ r : ℚ,
       piezo_pi_position_to_qudi_position r = spec_actuator_reading_to_physical r) :=
  ⟨fun _ => rfl, fun _ => rfl⟩

/-- C6 counterexample: on a zero-sample path, `scan_line` does not fail
through the module's explicit surfaced-error path (`log.error` + return
`-1`, the mechanism behind every named error of this module); it raises an
uncaught `IndexError` instead, so no `MalformedScanPath` error is
reported. -/
theorem empty_path_no_malformed_error :
    (scan_line gEx cEx (some ([] : ScanPath)) false).1
        = ScanOutcome.exn PyExn.indexError ∧
      (scan_line gEx cEx (some ([] : ScanPath)) false).1 ≠ ScanOutcome.errCode :=
  ⟨rfl, by decide⟩

/-- C6 amended: a ScanPath with zero samples makes `scan_line` fail
immediately — reading the first sample (`xVals[0]`) raises an uncaught
`IndexError` — and no call is issued to the lateral device or the depth
actuator.  There is no `MalformedScanPath` error path: only a missing
(`None`) path or unsupported geometry is rejected through the module's
explicit error return, and mismatched coordinate-sequence lengths cannot
arise because the path is a single 3 × k array. -/
theorem empty_path_raises_index_error (g : Galvo) (c : Controller)
    (pc : Bool) :
    scan_line g c (some ([] : ScanPath)) pc
      = (ScanOutcome.exn PyExn.indexError, []) :=
  rfl

/-- C7: the combined reset attempts both cleanup steps — galvo reset then
piezo `CloseConnection` — unconditionally (the trace always contains both
calls, whatever the galvo's status), and the outcome reports failure
whenever either step failed: a non-zero galvo status is returned as-is,
and a piezo close failure propagates as an exception. -/
theorem reset_hardware_best_effort (g : Galvo) (pOk : Bool) :
    (reset_hardware g pOk).2
        = [HwOp.galvoReset, HwOp.piezoCloseConnection] ∧
      ((g.resetRet ≠ 0 ∨ pOk = false) →
        reportsFailure (reset_hardware g pOk).1 = true) := by
  cases pOk with
  | true =>
    refine ⟨rfl, fun h => ?_⟩
    have hr : g.resetRet ≠ 0 := by
      rcases h with h | h
      · exact h
      · exact absurd h (by simp)
    simp [reset_hardware, reportsFailure, hr]
  | false => exact ⟨rfl, fun _ => rfl⟩

/-- Witness for C7: a galvo whose reset reports `-1` while the piezo close
succeeds — the close is still issued and the combined result reports
failure. -/
theorem reset_hardware_best_effort_witness :
    (gExFail.resetRet ≠ 0 ∨ true = false) ∧
      (reset_hardware gExFail true).2
          = [HwOp.galvoReset, HwOp.piezoCloseConnection] ∧
        reportsFailure (reset_hardware gExFail true).1 = true :=
  ⟨Or.inl (by decide),
   (reset_hardware_best_effort gExFail true).1,
   (reset_hardware_best_effort gExFail true).2 (Or.inl (by decide))⟩

/-- C10: a depth write whose converted voltage falls outside the stored
clamp range returns without issuing any piezo op at all — neither the
servo-disable nor the raw-voltage write — so any piezo state (servo-enable
flag and last-written voltage) is left exactly as it was. -/
theorem out_of_range_write_leaves_piezo_untouched (c : Controller) (z : ℚ)
    (s : PiezoState)
    (h : piezo_qudi_position_to_pi_voltage z < c.piezo_position_ranges.1 ∨
         piezo_qudi_position_to_pi_voltage z > c.piezo_position_ranges.2) :
    set_piezo_position c z = [] ∧ applyOps s (set_piezo_position c z) = s := by
  have hempty : set_piezo_position c z = [] := by
    simp only [set_piezo_position]
    split
    · rfl
    · next hcond => exact absurd h hcond
  exact ⟨hempty, by rw [hempty]; rfl⟩

/-- Witness for C10: with clamp range `(0, 100)`, the position `z = 1`
converts to voltage `1000050 > 100`; nothing is written and the piezo
state `⟨servo on, last voltage 3⟩` is untouched. -/
theorem out_of_range_write_leaves_piezo_untouched_witness :
    (piezo_qudi_position_to_pi_voltage 1 < cEx.piezo_position_ranges.1 ∨
       piezo_qudi_position_to_pi_voltage 1 > cEx.piezo_position_ranges.2) ∧
      (set_piezo_position cEx 1 = [] ∧
        applyOps ⟨true, some 3⟩ (set_piezo_position cEx 1) = ⟨true, some 3⟩) :=
  ⟨Or.inr (by norm_num [piezo_qudi_position_to_pi_voltage, cEx]),
   out_of_range_write_leaves_piezo_untouched cEx 1 ⟨true, some 3⟩
     (Or.inr (by norm_num [piezo_qudi_position_to_pi_voltage, cEx]))⟩

/-- C1: for every nonempty scan path (the 3 × k array shape makes the
three coordinate sequences equal-length by construction), `scan_line`
treats it as a lateral scan — forwarding the (X, Y) rows unchanged to the
lateral device's line-scan primitive with the given `pixel_clock` flag and
returning its result directly — iff Z is constant; as a depth scan
(dispatch to `_scan_z_line` at the held first lateral position) iff Z
varies while X and Y are both constant; and as invalid (explicit error
return, no hardware op) otherwise. -/
theorem scan_line_classification (g : Galvo) (c : Controller) (p : ScanPath)
    (pc : Bool) (hk : p ≠ []) :
    (constantVals (zValsOf p) (zValsOf p).headI = true →
       scan_line g c (some p) pc =
         (ScanOutcome.ok (some (g.scanLineCounts (xValsOf p) (yValsOf p) pc)),
          [HwOp.galvoScanLine (xValsOf p) (yValsOf p) pc])) ∧
    (constantVals (zValsOf p) (zValsOf p).headI = false →
     constantVals (xValsOf p) (xValsOf p).headI = true →
     constantVals (yValsOf p) (yValsOf p).headI = true →
       scan_line g c (some p) pc =
         (ScanOutcome.ok
           (scan_z_line g c (xValsOf p).headI (yValsOf p).headI (zValsOf p) pc).1,
          (scan_z_line g c (xValsOf p).headI (yValsOf p).headI (zValsOf p) pc).2)) ∧
    (constantVals (zValsOf p) (zValsOf p).headI = false →
     (constantVals (xValsOf p) (xValsOf p).headI &&
      constantVals (yValsOf p) (yValsOf p).headI) = false →
       scan_line g c (some p) pc = (ScanOutcome.errCode, [])) := by
  match p, hk with
  | s0 :: rest, _ =>
    refine ⟨fun hz => ?_, fun hz hx hy => ?_, fun hz hxy => ?_⟩
    · exact scan_line_lateral_eq g c s0 rest pc hz
    · exact scan_line_depth_eq g c s0 rest pc hz hx hy
    · exact scan_line_invalid_eq g c s0 rest pc hz hxy

/-- Witness for C1 on the lateral path `X = [0, 1]`, `Y = [0, 0]`,
`Z = [0, 0]`. -/
theorem scan_line_classification_witness :
    ([(0, 0, 0), (1, 0, 0)] : ScanPath) ≠ [] ∧
      scan_line gEx cEx (some [(0, 0, 0), (1, 0, 0)]) false =
        (ScanOutcome.ok
          (some (gEx.scanLineCounts (xValsOf [(0, 0, 0), (1, 0, 0)])
            (yValsOf [(0, 0, 0), (1, 0, 0)]) false)),
         [HwOp.galvoScanLine (xValsOf [(0, 0, 0), (1, 0, 0)])
            (yValsOf [(0, 0, 0), (1, 0, 0)]) false]) :=
  ⟨by decide,
   (scan_line_classification gEx cEx [(0, 0, 0), (1, 0, 0)] false
      (by decide)).1 (by decide)⟩

/-- C8: a scan path whose depth coordinate varies while a lateral
coordinate also varies is rejected through the module's explicit error
return (`log.error('This module only supports scans in xy or z.')`,
return `-1`): no call is issued to either device and no counts are
returned. -/
theorem scan_line_rejects_mixed_geometry (g : Galvo) (c : Controller)
    (p : ScanPath) (pc : Bool) (hk : p ≠ [])
    (hz : constantVals (zValsOf p) (zValsOf p).headI = false)
    (hxy : (constantVals (xValsOf p) (xValsOf p).headI &&
            constantVals (yValsOf p) (yValsOf p).headI) = false) :
    scan_line g c (some p) pc = (ScanOutcome.errCode, []) := by
  match p, hk with
  | s0 :: rest, _ => exact scan_line_invalid_eq g c s0 rest pc hz hxy

/-- Witness for C8 on `X = [0, 1]`, `Y = [0, 0]`, `Z = [0, 1]`. -/
theorem scan_line_rejects_mixed_geometry_witness :
    ([(0, 0, 0), (1, 0, 1)] : ScanPath) ≠ [] ∧
      scan_line gEx cEx (some [(0, 0, 0), (1, 0, 1)]) false
        = (ScanOutcome.errCode, []) :=
  ⟨by decide,
   scan_line_rejects_mixed_geometry gEx cEx [(0, 0, 0), (1, 0, 1)] false
     (by decide) (by decide) (by decide)⟩

/-- C9: in every trace the module emits — `scanner_set_position` and
`scan_line` alike — each raw piezo write (`SVA`) immediately follows a
servo disable (`SVO False`), and a raw write is never issued without the
disable directly before it. -/
theorem servo_disabled_before_raw_write (g : Galvo) (c : Controller) :
    (∀ x y z : ℚ, svaAfterSvoOff (scanner_set_position g c x y z).2 = true) ∧
    (∀ (lp : Option ScanPath) (pc : Bool),
       svaAfterSvoOff (scan_line g c lp pc).2 = true) := by
  have hset : ∀ z : ℚ, svaAfterSvoOff (set_piezo_position c z) = true := by
    intro z
    have h := svaAfterSvoOff_set_piezo_append c z []
    rw [List.append_nil] at h
    rw [h]
    rfl
  have hzscan : ∀ (x y : ℚ) (zs : List ℚ) (pc : Bool),
      svaAfterSvoOff (scan_z_line g c x y zs pc).2 = true := by
    intro x y zs pc
    induction zs with
    | nil => rfl
    | cons z zs ih =>
      show svaAfterSvoOff
        ((set_piezo_position c z ++ [HwOp.galvoScanLine [x, x] [y, y] pc]) ++
          (scan_z_line g c x y zs pc).2) = true
      rw [List.append_assoc, svaAfterSvoOff_set_piezo_append,
        List.singleton_append, svaAfterSvoOff_galvoScanLine_cons]
      exact ih
  refine ⟨fun x y z => ?_, fun lp pc => ?_⟩
  · show svaAfterSvoOff
      (HwOp.galvoSetPosition x y :: set_piezo_position c z) = true
    rw [svaAfterSvoOff_galvoSetPosition_cons]
    exact hset z
  · match lp with
    | none => rfl
    | some [] => rfl
    | some (s0 :: rest) =>
      cases hz : constantVals (zValsOf (s0 :: rest)) s0.2.2 with
      | true =>
        rw [scan_line_lateral_eq g c s0 rest pc hz]
        rfl
      | false =>
        cases hx : constantVals (xValsOf (s0 :: rest)) s0.1 with
        | false =>
          rw [scan_line_invalid_eq g c s0 rest pc hz (by rw [hx]; rfl)]
          rfl
        | true =>
          cases hy : constantVals (yValsOf (s0 :: rest)) s0.2.1 with
          | false =>
            rw [scan_line_invalid_eq g c s0 rest pc hz (by rw [hx, hy]; rfl)]
            rfl
          | true =>
            rw [scan_line_depth_eq g c s0 rest pc hz hx hy]
            exact hzscan s0.1 s0.2.1 (zValsOf (s0 :: rest)) pc

/-- C2 (code bug): `_scan_z_line` steps the piezo and acquires at every
depth sample, but its body ends without a `return` statement, so the loop's
accumulated counts are discarded and every depth scan evaluates to Python
`None` instead of the documented k × m counts.  Concretely, the depth scan
over `X = [0, 0]`, `Y = [0, 0]`, `Z = [0, 1]` returns `None` through
`scan_line`, not a `PixelCounts` of length 2, violating
`len(PixelCounts) == len(ScanPath)` and the function's own docstring. -/
theorem scan_z_line_missing_return :
    (∀ (g : Galvo) (c : Controller) (x y : ℚ) (zs : List ℚ) (pc : Bool),
        (scan_z_line g c x y zs pc).1 = none) ∧
    (scan_line gEx cEx (some [(0, 0, 0), (0, 0, 1)]) false).1
        = ScanOutcome.ok none ∧
    (∀ counts : List (List ℚ),
        (scan_line gEx cEx (some [(0, 0, 0), (0, 0, 1)]) false).1
          ≠ ScanOutcome.ok (some counts)) := by
  have h2 : (scan_line gEx cEx (some [(0, 0, 0), (0, 0, 1)]) false).1
      = ScanOutcome.ok none := by
    rw [scan_line_depth_eq gEx cEx (0, 0, 0) [(0, 0, 1)] false (by decide)
      (by decide) (by decide)]
    rfl
  refine ⟨fun _ _ _ _ _ _ => rfl, h2, fun counts hcontra => ?_⟩
  rw [h2] at hcontra
  simp at hcontra

/-- C3 (code bug): the clamp in `_set_piezo_position` never consults the
voltage range stored by `set_voltage_range` — the written bounds are read
from `self._piezo_position_ranges` (despite the locals being named
`piezo_vol_min` / `piezo_vol_max`), and `self._piezo_voltage_ranges` is
never read anywhere in the module.  First conjunct: the write path is
insensitive to the stored voltage range.  Second conjunct: after
`set_voltage_range` stores the depth voltage interval `(0, 100)`, a
`set_position` whose z converts to voltage `50` — squarely inside that
stored voltage range — still skips the depth write (no piezo op issued)
because `50` lies outside the configured meter-scale position interval,
while the call returns the lateral device's code. -/
theorem set_piezo_clamp_ignores_voltage_range :
    (∀ (c : Controller) (vr : List (ℚ × ℚ)) (z : ℚ),
        set_piezo_position { c with piezo_voltage_ranges := vr } z
          = set_piezo_position c z) ∧
    ((set_voltage_range gEx cExMeters
        [(-10, 10), (-10, 10), (0, 100)]).1.piezo_voltage_ranges
          = [(0, 100)] ∧
      piezo_qudi_position_to_pi_voltage 0 = 50 ∧
      scanner_set_position gEx
          (set_voltage_range gEx cExMeters [(-10, 10), (-10, 10), (0, 100)]).1
          0 0 0
        = (0, [HwOp.galvoSetPosition 0 0])) := by
  refine ⟨fun c vr z => rfl, rfl, by norm_num [piezo_qudi_position_to_pi_voltage], ?_⟩
  have hskip : set_piezo_position
      (set_voltage_range gEx cExMeters [(-10, 10), (-10, 10), (0, 100)]).1 0
        = [] := by
    simp only [set_piezo_position, set_voltage_range, cExMeters]
    rw [if_pos]
    exact Or.inr (by norm_num [piezo_qudi_position_to_pi_voltage])
  simp only [scanner_set_position, hskip]
  rfl

end GalvoObjectivePiezo
